import Mathlib

/-!
Verification of the moonrise-calendar service (whynotcats/api).

The Rust sources `src/main.rs` and `src/models.rs` are shallowly embedded
below.  Floating-point (`f64`) values are modelled over `ℚ`; machine
integers (`i64`, `usize`) over `Int`/`Nat`; the external moonrise oracle
(`geodate::moon_transit::get_moonrise`) and the external timezone parser
and date renderer (`chrono_tz` / `chrono`) are taken as function
parameters; a Rust `unwrap` failure on user input is modelled as
`Except.error ()`.
-/

namespace MoonApi

/-- From `src/main.rs` line 135: `(timestamp as f64 / 86400.0) + 2440587.5`. -/
def unix_to_julian (timestamp : Int) : ℚ :=
  (timestamp : ℚ) / 86400 + 2440587.5

/-- From `src/main.rs` line 139: `((jd - 2440587.5) * 86400.0).round() as i64`. -/
def julian_to_unix (jd : ℚ) : Int :=
  round ((jd - 2440587.5) * 86400)

/-- From `src/main.rs` lines 148-149: the longitude-adjusted Julian Day for
day index `i`, computed from the anchor `l = now + i days`:
`(unix_to_julian(l.timestamp()) + lon / 360.0 + 0.5).floor() - 0.5`. -/
def dayJd (now : Int) (lon : ℚ) (i : Nat) : ℚ :=
  (⌊unix_to_julian (now + (i : Int) * 86400) + lon / 360 + 0.5⌋ : ℚ) - 0.5

/-- One iteration of the loop body of `generate_moonrises`
(`src/main.rs` lines 148-163) for day index `i`, given the previously
accepted moonrise `prev`.  The `oracle` parameter stands for
`get_moonrise(day_start_unix, lon, lat)`.  Returns the accepted moonrise
for the day, if any: a first result within the proximity threshold of
`prev` is discarded and the oracle is queried once more at `jd + 1`. -/
def moonriseStep (oracle : Int → ℚ → ℚ → Option Int) (now : Int)
    (lat lon : ℚ) (i : Nat) (prev : Int) : Option Int :=
  match oracle (julian_to_unix (dayJd now lon i)) lon lat with
  | some m =>
      if m - prev ≤ 500 then oracle (julian_to_unix (dayJd now lon i + 1)) lon lat
      else some m
  | none => none

/-- The loop of `generate_moonrises` starting at day index `i` with
`fuel` iterations remaining and previously accepted moonrise `prev`;
accepted moonrises are collected in day order (`moonrises.push`). -/
def genFrom (oracle : Int → ℚ → ℚ → Option Int) (now : Int)
    (lat lon : ℚ) : Nat → Nat → Int → List Int
  | _, 0, _ => []
  | i, fuel + 1, prev =>
      match moonriseStep oracle now lat lon i prev with
      | some m => m :: genFrom oracle now lat lon (i + 1) fuel m
      | none => genFrom oracle now lat lon (i + 1) fuel prev

/-- From `src/main.rs` lines 143-168: `generate_moonrises(lat, lon,
number_of_days)`.  `now` models `Utc::now().timestamp()`; the mutable
`previous_moonrise` starts at `0`. -/
def generate_moonrises (oracle : Int → ℚ → ℚ → Option Int) (now : Int)
    (lat lon : ℚ) (number_of_days : Nat) : List Int :=
  genFrom oracle now lat lon 0 number_of_days 0

/-- Stated from the specification's words (§4.2 step 2), for comparison
with the implementation's `dayJd`:
`jd = floor(toJulianDay(anchorUnix) + longitude/360 + 0.5) − 0.5`. -/
def specDayJd (anchorUnix : Int) (longitude : ℚ) : ℚ :=
  (⌊unix_to_julian anchorUnix + longitude / 360 + 0.5⌋ : ℚ) - 0.5

/-- From `src/models.rs` lines 30-41. -/
inductive FeatureClass
  | City
  | Area
  | WaterBody
  | Region
  | Road
  | Spot
  | Hill
  | Undersea
  | Forest
deriving DecidableEq

/-- From `src/models.rs` lines 43-61: `FeatureClass::from_str`.  The guard
is `s.len() != 1` exactly as written in the source; in the guarded branch
the source calls `.first().unwrap()` on the character vector, which panics
on the empty string — modelled as `Except.error ()`. -/
def FeatureClass.from_str (s : String) : Except Unit (Option FeatureClass) :=
  if s.length ≠ 1 then
    match s.data.head? with
    | none => Except.error ()
    | some c =>
        Except.ok
          (if c = 'A' then some FeatureClass.Region
           else if c = 'H' then some FeatureClass.WaterBody
           else if c = 'L' then some FeatureClass.Area
           else if c = 'P' then some FeatureClass.City
           else if c = 'R' then some FeatureClass.Road
           else if c = 'S' then some FeatureClass.Spot
           else if c = 'T' then some FeatureClass.Hill
           else if c = 'U' then some FeatureClass.Undersea
           else if c = 'V' then some FeatureClass.Forest
           else none)
  else Except.ok none

/-- From `src/models.rs` lines 97-106: the form payload of `POST /ical`. -/
structure CreateCalendar where
  lat : ℚ
  lon : ℚ
  before : Nat
  after : Nat
  number_of_days : Nat
  summary : Option String
  timezone : Option String

/-- One calendar event as assembled in `generate_calendar`
(`src/main.rs` lines 106-116): SUMMARY, DESCRIPTION, DTSTART, DTEND,
the two instants as Unix seconds. -/
structure CalendarEvent where
  summary : String
  description : String
  dtstart : Int
  dtend : Int
deriving DecidableEq

/-- Default SUMMARY text (`src/main.rs` line 111). -/
def defaultSummary : String := "Moonrise"

/-- DESCRIPTION label (`src/main.rs` line 113). -/
def descLabel : String := "Moonrise @ "

/-- Default timezone name (`src/main.rs` line 97). -/
def defaultTimezone : String := "UTC"

/-- From `src/main.rs` lines 100-118, the per-moonrise event assembly:
`start = moonrise_date - Duration::minutes(before)`,
`end = moonrise_date + Duration::minutes(after)`, description
`"Moonrise @ {moonrise in tz}"` where `render` models formatting of
`moonrise_date.with_timezone(&tz)`. -/
def build_event (render : String → Int → String) (payload : CreateCalendar)
    (tz : String) (moonrise : Int) : CalendarEvent :=
  ⟨payload.summary.getD defaultSummary,
   descLabel ++ render tz moonrise,
   moonrise - (payload.before : Int) * 60,
   moonrise + (payload.after : Int) * 60⟩

/-- From `src/main.rs` lines 89-133: the `/ical` handler body, up to
calendar serialization.  `parseTz` models `str::parse::<Tz>` (returning
`none` on an unrecognized timezone name); the source then calls
`.unwrap()` on that result, which panics — modelled as `Except.error ()`.
On success the handler produces one event per generated moonrise. -/
def generate_calendar (parseTz : String → Option String)
    (render : String → Int → String) (oracle : Int → ℚ → ℚ → Option Int)
    (now : Int) (payload : CreateCalendar) : Except Unit (List CalendarEvent) :=
  let moonrises :=
    generate_moonrises oracle now payload.lat payload.lon payload.number_of_days
  match parseTz (payload.timezone.getD defaultTimezone) with
  | none => Except.error ()
  | some tz => Except.ok (moonrises.map (build_event render payload tz))

end MoonApi

namespace MoonApi

theorem genFrom_zero (oracle : Int → ℚ → ℚ → Option Int) (now : Int)
    (lat lon : ℚ) (i : Nat) (prev : Int) :
    genFrom oracle now lat lon i 0 prev = [] := rfl

theorem genFrom_succ (oracle : Int → ℚ → ℚ → Option Int) (now : Int)
    (lat lon : ℚ) (i n : Nat) (prev : Int) :
    genFrom oracle now lat lon i (n + 1) prev =
      match moonriseStep oracle now lat lon i prev with
      | some m => m :: genFrom oracle now lat lon (i + 1) n m
      | none => genFrom oracle now lat lon (i + 1) n prev := rfl

theorem moonriseStep_requery (oracle : Int → ℚ → ℚ → Option Int) (now : Int)
    (lat lon : ℚ) (i : Nat) (prev m : Int)
    (h1 : oracle (julian_to_unix (dayJd now lon i)) lon lat = some m)
    (h2 : m - prev ≤ 500) :
    moonriseStep oracle now lat lon i prev =
      oracle (julian_to_unix (dayJd now lon i + 1)) lon lat := by
  unfold moonriseStep
  rw [h1]
  exact if_pos h2

theorem genFrom_length_le (oracle : Int → ℚ → ℚ → Option Int) (now : Int)
    (lat lon : ℚ) (fuel : Nat) : ∀ (i : Nat) (prev : Int),
    (genFrom oracle now lat lon i fuel prev).length ≤ fuel := by
  induction fuel with
  | zero =>
      intro i prev
      rw [genFrom_zero]
      exact Nat.le_refl 0
  | succ n ih =>
      intro i prev
      rw [genFrom_succ]
      cases h : moonriseStep oracle now lat lon i prev with
      | some m => exact Nat.succ_le_succ (ih (i + 1) m)
      | none => exact (ih (i + 1) prev).trans (Nat.le_succ n)

/-- Oracle stub used for concrete checks: always reports a moonrise 400
seconds after the epoch. -/
def oracle400 : Int → ℚ → ℚ → Option Int := fun _ _ _ => some 400

/-- Oracle stub used for concrete checks: never reports a moonrise. -/
def oracleNone : Int → ℚ → ℚ → Option Int := fun _ _ _ => none

/-- Oracle stub witnessing that a re-queried result can fall within 500
seconds of the previous accepted moonrise. -/
def closeOracle : Int → ℚ → ℚ → Option Int :=
  fun t _ _ =>
    if t = 0 then some 400
    else if t = 86400 then some 600
    else if t = 172800 then some 650
    else none

/-- Timezone parser stub: recognizes only the name `UTC`. -/
def utcOnly : String → Option String :=
  fun s => if s = defaultTimezone then some s else none

/-- Rendering stub for descriptions. -/
def noRender : String → Int → String := fun _ _ => ""

/-- Request fixture with an unparseable timezone name. -/
def badTzPayload : CreateCalendar := ⟨40.7, -74.0, 30, 45, 1, none, some "Not/A_Zone"⟩

/-- Request fixture with before = 30, after = 45. -/
def c6Payload : CreateCalendar := ⟨40.7, -74.0, 30, 45, 3, none, none⟩

end MoonApi

/-- C4: `julian_to_unix (unix_to_julian t)` recovers `t` exactly, hence in
particular to within one second: the two conversions are exact inverses up
to rounding to the nearest second. -/
theorem C4_julian_roundtrip (t : Int) :
    MoonApi.julian_to_unix (MoonApi.unix_to_julian t) = t ∧
    (MoonApi.julian_to_unix (MoonApi.unix_to_julian t) - t).natAbs ≤ 1 := by
  have h : MoonApi.julian_to_unix (MoonApi.unix_to_julian t) = t := by
    unfold MoonApi.julian_to_unix MoonApi.unix_to_julian
    rw [add_sub_cancel_right, div_mul_cancel₀]
    · exact round_intCast t
    · norm_num
  exact ⟨h, by simp [h]⟩

/-- C10: with `number_of_days = 0` the generator returns the empty sequence
for every oracle (so in particular it depends on no oracle answer), and
without any failure. -/
theorem C10_zero_days (oracle : Int → ℚ → ℚ → Option Int) (now : Int)
    (lat lon : ℚ) :
    MoonApi.generate_moonrises oracle now lat lon 0 = [] := rfl

/-- C7: for every day index `i`, the generator's loop body queries the
oracle at the Unix-seconds equivalent of the longitude-adjusted Julian Day
`jd = floor(toJulianDay(now + i·86400) + lon/360 + 0.5) − 0.5` (the spec's
formula, `specDayJd`), passing the longitude and latitude, re-querying at
`jd + 1` under the proximity condition; and the generator's loop consults
exactly this body on day `i`. -/
theorem C7_longitude_adjusted_query (oracle : Int → ℚ → ℚ → Option Int)
    (now : Int) (lat lon : ℚ) (i n : Nat) (prev : Int) :
    MoonApi.moonriseStep oracle now lat lon i prev =
      (match oracle (MoonApi.julian_to_unix
          (MoonApi.specDayJd (now + (i : Int) * 86400) lon)) lon lat with
       | some m =>
           if m - prev ≤ 500 then
             oracle (MoonApi.julian_to_unix
               (MoonApi.specDayJd (now + (i : Int) * 86400) lon + 1)) lon lat
           else some m
       | none => none) ∧
    MoonApi.genFrom oracle now lat lon i (n + 1) prev =
      (match MoonApi.moonriseStep oracle now lat lon i prev with
       | some m => m :: MoonApi.genFrom oracle now lat lon (i + 1) n m
       | none => MoonApi.genFrom oracle now lat lon (i + 1) n prev) :=
  ⟨rfl, rfl⟩

/-- C5: if the day-`i` first query returns a result within 500 seconds of
the previous accepted moonrise, the generator discards it, re-queries once
at `jd + 1`, and records the re-queried result (if any); when the re-query
returns none the day is skipped with `prev` unchanged. -/
theorem C5_proximity_requery (oracle : Int → ℚ → ℚ → Option Int) (now : Int)
    (lat lon : ℚ) (i n : Nat) (prev m : Int)
    (h1 : oracle (MoonApi.julian_to_unix (MoonApi.dayJd now lon i)) lon lat = some m)
    (h2 : (m - prev).natAbs ≤ 500) :
    MoonApi.genFrom oracle now lat lon i (n + 1) prev =
      (match oracle (MoonApi.julian_to_unix (MoonApi.dayJd now lon i + 1)) lon lat with
       | some m2 => m2 :: MoonApi.genFrom oracle now lat lon (i + 1) n m2
       | none => MoonApi.genFrom oracle now lat lon (i + 1) n prev) := by
  have h2' : m - prev ≤ 500 := by omega
  rw [MoonApi.genFrom_succ,
    MoonApi.moonriseStep_requery oracle now lat lon i prev m h1 h2']

/-- Witness for C5 at a concrete input: the constant oracle reporting 400
with `prev = 0` triggers the correction, and the re-queried result 400 is
recorded. -/
theorem C5_witness :
    MoonApi.oracle400 (MoonApi.julian_to_unix (MoonApi.dayJd 0 0 0)) 0 0 = some 400 ∧
    ((400 : Int) - 0).natAbs ≤ 500 ∧
    MoonApi.genFrom MoonApi.oracle400 0 0 0 0 1 0 =
      400 :: MoonApi.genFrom MoonApi.oracle400 0 0 0 1 0 400 :=
  ⟨rfl, by decide, C5_proximity_requery MoonApi.oracle400 0 0 0 0 0 0 400 rfl (by decide)⟩

/-- C8: on a day whose oracle result is none even after the correction, no
entry is contributed and the loop continues with `prev` unchanged. -/
theorem C8_skip_day (oracle : Int → ℚ → ℚ → Option Int) (now : Int)
    (lat lon : ℚ) (i n : Nat) (prev : Int)
    (h : MoonApi.moonriseStep oracle now lat lon i prev = none) :
    MoonApi.genFrom oracle now lat lon i (n + 1) prev =
      MoonApi.genFrom oracle now lat lon (i + 1) n prev := by
  rw [MoonApi.genFrom_succ, h]

/-- Witness for C8 at a concrete input: the never-answering oracle skips
day 0 and leaves `prev = 0` for the next iteration. -/
theorem C8_witness :
    MoonApi.moonriseStep MoonApi.oracleNone 0 0 0 0 0 = none ∧
    MoonApi.genFrom MoonApi.oracleNone 0 0 0 0 1 0 =
      MoonApi.genFrom MoonApi.oracleNone 0 0 0 1 0 0 :=
  ⟨rfl, C8_skip_day MoonApi.oracleNone 0 0 0 0 0 0 rfl⟩

/-- C9: `generate_moonrises` starts the previously-accepted value at the
sentinel `0`, and the proximity test is the signed comparison
`m - prev ≤ 500`: before any acceptance (`prev = 0`) a result at most 500
seconds after the epoch triggers the re-query, and a result earlier than
the previous accepted instant (by any amount) also triggers it. -/
theorem C9_signed_proximity (oracle : Int → ℚ → ℚ → Option Int) (now : Int)
    (lat lon : ℚ) (n i : Nat) (prev m : Int)
    (h1 : oracle (MoonApi.julian_to_unix (MoonApi.dayJd now lon i)) lon lat = some m)
    (h2 : (prev = 0 ∧ m ≤ 500) ∨ m < prev) :
    MoonApi.moonriseStep oracle now lat lon i prev =
      oracle (MoonApi.julian_to_unix (MoonApi.dayJd now lon i + 1)) lon lat ∧
    MoonApi.generate_moonrises oracle now lat lon n =
      MoonApi.genFrom oracle now lat lon 0 n 0 := by
  have h2' : m - prev ≤ 500 := by
    rcases h2 with ⟨hp, hm⟩ | hm <;> omega
  exact ⟨MoonApi.moonriseStep_requery oracle now lat lon i prev m h1 h2', rfl⟩

/-- Witness for C9 at a concrete input: with `prev = 0` a reported
moonrise 400 seconds after the epoch is re-queried. -/
theorem C9_witness :
    MoonApi.oracle400 (MoonApi.julian_to_unix (MoonApi.dayJd 0 0 0)) 0 0 = some 400 ∧
    (((0 : Int) = 0 ∧ (400 : Int) ≤ 500) ∨ (400 : Int) < 0) ∧
    MoonApi.moonriseStep MoonApi.oracle400 0 0 0 0 0 = some 400 ∧
    MoonApi.generate_moonrises MoonApi.oracle400 0 0 0 3 =
      MoonApi.genFrom MoonApi.oracle400 0 0 0 0 3 0 :=
  ⟨rfl, Or.inl ⟨rfl, by decide⟩,
    C9_signed_proximity MoonApi.oracle400 0 0 0 3 0 0 400 rfl (Or.inl ⟨rfl, by decide⟩)⟩

/-- C1 fails as stated: with `closeOracle`, two days and `now = 0` at
latitude and longitude 0, the generator accepts 600 and then — through an
unchecked proximity-correction re-query — 650, two instants only 50
seconds apart. -/
theorem C1_counterexample :
    MoonApi.generate_moonrises MoonApi.closeOracle 0 0 0 2 = [600, 650] ∧
    (650 : Int) - 600 < 500 := by
  constructor
  · have q0 : MoonApi.julian_to_unix (MoonApi.dayJd 0 0 0) = 0 := by
      simp [MoonApi.julian_to_unix, MoonApi.dayJd, MoonApi.unix_to_julian, round_eq]
      norm_num
    have q0' : MoonApi.julian_to_unix (MoonApi.dayJd 0 0 0 + 1) = 86400 := by
      simp [MoonApi.julian_to_unix, MoonApi.dayJd, MoonApi.unix_to_julian, round_eq]
      norm_num
    have q1 : MoonApi.julian_to_unix (MoonApi.dayJd 0 0 1) = 86400 := by
      simp [MoonApi.julian_to_unix, MoonApi.dayJd, MoonApi.unix_to_julian, round_eq]
      norm_num
    have q1' : MoonApi.julian_to_unix (MoonApi.dayJd 0 0 1 + 1) = 172800 := by
      simp [MoonApi.julian_to_unix, MoonApi.dayJd, MoonApi.unix_to_julian, round_eq]
      norm_num
    have s0 : MoonApi.moonriseStep MoonApi.closeOracle 0 0 0 0 0 = some 600 := by
      unfold MoonApi.moonriseStep
      rw [q0, q0']
      rfl
    have s1 : MoonApi.moonriseStep MoonApi.closeOracle 0 0 0 1 600 = some 650 := by
      unfold MoonApi.moonriseStep
      rw [q1, q1']
      rfl
    show MoonApi.genFrom MoonApi.closeOracle 0 0 0 0 (1 + 1) 0 = [600, 650]
    rw [MoonApi.genFrom_succ, s0]
    show 600 :: MoonApi.genFrom MoonApi.closeOracle 0 0 0 (0 + 1) (0 + 1) 600 = [600, 650]
    rw [MoonApi.genFrom_succ, s1]
    rfl
  · decide

/-- C1 (amended): for every oracle behaviour and every `number_of_days = N`
the generator returns between 0 and N instants; the ordering and
500-second-gap guarantees do not hold for arbitrary oracle behaviour,
since a re-queried result is accepted without a further proximity check
(see the counterexample). -/
theorem C1_amended_length_bound (oracle : Int → ℚ → ℚ → Option Int)
    (now : Int) (lat lon : ℚ) (number_of_days : Nat) :
    (MoonApi.generate_moonrises oracle now lat lon number_of_days).length ≤
      number_of_days :=
  MoonApi.genFrom_length_le oracle now lat lon number_of_days 0 0

/-- C2: the code contradicts the claim — an unparseable timezone name makes
the handler call `unwrap` on a failed parse, aborting the request instead
of falling back to UTC.  Evaluated at the failing input: a parser that
only recognizes UTC, a request whose timezone field is `Not/A_Zone`. -/
theorem C2_invalid_timezone_aborts :
    MoonApi.generate_calendar MoonApi.utcOnly MoonApi.noRender MoonApi.oracle400 0
      MoonApi.badTzPayload = Except.error () := rfl

/-- C3: the code contradicts the claim — the guard in
`FeatureClass::from_str` is inverted (`s.len() != 1`), so the single-letter
code `A` decodes to `none` instead of `Region`, the empty string panics on
`first().unwrap()` instead of yielding `none`, and a multi-letter string
such as `AB` decodes to `Region`. -/
theorem C3_feature_class_decoding :
    MoonApi.FeatureClass.from_str ("A") = Except.ok none ∧
    MoonApi.FeatureClass.from_str ("") = Except.error () ∧
    MoonApi.FeatureClass.from_str ("AB") =
      Except.ok (some MoonApi.FeatureClass.Region) :=
  ⟨rfl, rfl, rfl⟩

/-- C6: every built event starts exactly `before * 60` seconds before and
ends exactly `after * 60` seconds after the moonrise instant, with no
calendar-day special-casing; in particular for before = 30, after = 45 and
instant 1700000000 the start is 1699998200 and the end is 1700002700. -/
theorem C6_event_offsets :
    (∀ (render : String → Int → String) (payload : MoonApi.CreateCalendar)
        (tz : String) (m : Int),
        (MoonApi.build_event render payload tz m).dtstart =
          m - (payload.before : Int) * 60 ∧
        (MoonApi.build_event render payload tz m).dtend =
          m + (payload.after : Int) * 60) ∧
    (MoonApi.build_event MoonApi.noRender MoonApi.c6Payload
      MoonApi.defaultTimezone 1700000000).dtstart = 1699998200 ∧
    (MoonApi.build_event MoonApi.noRender MoonApi.c6Payload
      MoonApi.defaultTimezone 1700000000).dtend = 1700002700 :=
  ⟨fun _ _ _ _ => ⟨rfl, rfl⟩, by decide, by decide⟩
